import Mathlib

/-!
Verification of the financial calculation and scenario-comparison engine of
the project-financing calculator (`src/app.py`, class
`ProjectFinancingCalculator`).

The Python code computes with IEEE doubles; this development embeds the same
arithmetic over exact rationals (`ℚ`), with the integer loan tenure as a
natural number so every power in the EMI and growth formulas has a natural
exponent.  All definitions below are translated line by line from
`calculate_emi`, `calculate_investment_growth`, `calculate_comparison` and
`generate_year_wise_data` in the source.  Definitions whose doc comment says
they follow the specification text are the reference side of refinement
claims, not translations of the code.
-/

namespace ProjectFinancing

/-- Compounding frequency of an investment option, from the
`investment_options` catalog (the `compounding` entry of each option). -/
inductive Compounding where
  | daily
  | monthly
  | quarterly
  | annual
deriving DecidableEq

/-- The input record assembled in `main` and consumed by
`calculate_comparison` / `generate_year_wise_data`.  Only the fields the
calculation engine reads are modelled; `investment_type` is represented by
the compounding frequency it selects in the catalog. -/
structure Inputs where
  project_cost : ℚ
  own_capital : ℚ
  loan_rate : ℚ
  loan_tenure : ℕ
  loan_interest_deductible : Bool
  tax_rate : ℚ
  investment_return : ℚ
  compounding : Compounding
  custom_capital_contribution : ℚ
deriving DecidableEq

/-- `ProjectFinancingCalculator.calculate_emi` from `src/app.py`
(lines 59-76), over exact rationals.  `monthly_rate = rate / (12 * 100)`,
`months = tenure_years * 12`, and the standard annuity formula otherwise. -/
def calculate_emi (principal rate : ℚ) (tenure_years : ℕ) : ℚ :=
  if principal = 0 then 0
  else
    let monthly_rate : ℚ := rate / (12 * 100)
    let months : ℕ := tenure_years * 12
    if rate = 0 then principal / (months : ℚ)
    else if monthly_rate = 0 then principal / (months : ℚ)
    else principal * monthly_rate * (1 + monthly_rate) ^ months /
      ((1 + monthly_rate) ^ months - 1)

/-- `calculate_emi` with Python division semantics made explicit: a division
whose divisor is zero raises `ZeroDivisionError` in the source, modelled here
as `none`.  With `tenure_years = 0` the zero-rate branches divide by
`months = 0` and the annuity branch divides by `(1+r)^0 - 1 = 0`. -/
def calculate_emiChecked (principal rate : ℚ) (tenure_years : ℕ) : Option ℚ :=
  if principal = 0 then some 0
  else
    let monthly_rate : ℚ := rate / (12 * 100)
    let months : ℕ := tenure_years * 12
    if rate = 0 then
      if (months : ℚ) = 0 then none else some (principal / (months : ℚ))
    else if monthly_rate = 0 then
      if (months : ℚ) = 0 then none else some (principal / (months : ℚ))
    else
      let q : ℚ := (1 + monthly_rate) ^ months
      if q - 1 = 0 then none else some (principal * monthly_rate * q / (q - 1))

/-- `ProjectFinancingCalculator.calculate_investment_growth` from
`src/app.py` (lines 78-89): compound growth at the catalog compounding
frequency, `rate = annual_rate / 100`. -/
def calculate_investment_growth (principal annual_rate : ℚ) (years : ℕ)
    (compounding : Compounding) : ℚ :=
  let rate := annual_rate / 100
  match compounding with
  | .daily => principal * (1 + rate / 365) ^ (365 * years)
  | .quarterly => principal * (1 + rate / 4) ^ (4 * years)
  | .monthly => principal * (1 + rate / 12) ^ (12 * years)
  | .annual => principal * (1 + rate) ^ years

/-! ### Option 1 of `calculate_comparison` (lines 200-219):
use own capital first, loan for the remainder. -/

/-- Line 201: `max(0, project_cost - own_capital)` (lakh). -/
def option1_loan_amount_lakh (i : Inputs) : ℚ :=
  max 0 (i.project_cost - i.own_capital)

/-- Line 202: conversion of the loan to the EMI base unit. -/
def option1_loan_amount_actual (i : Inputs) : ℚ :=
  option1_loan_amount_lakh i * 100000

/-- Line 203. -/
def option1_emi (i : Inputs) : ℚ :=
  calculate_emi (option1_loan_amount_actual i) i.loan_rate i.loan_tenure

/-- Line 204: `emi * 12 * loan_tenure`. -/
def option1_total_payment (i : Inputs) : ℚ :=
  option1_emi i * 12 * (i.loan_tenure : ℚ)

/-- Line 205. -/
def option1_total_interest (i : Inputs) : ℚ :=
  option1_total_payment i - option1_loan_amount_actual i

/-- Lines 208-210: tax shield on interest when deductible. -/
def option1_effective_interest (i : Inputs) : ℚ :=
  if i.loan_interest_deductible then
    option1_total_interest i * (1 - i.tax_rate / 100)
  else option1_total_interest i

/-- Line 212. -/
def option1_total_interest_lakh (i : Inputs) : ℚ :=
  option1_total_interest i / 100000

/-- Line 213. -/
def option1_effective_interest_lakh (i : Inputs) : ℚ :=
  option1_effective_interest i / 100000

/-- Line 216: net cost of option 1 (no investment gain term). -/
def option1_net_outflow (i : Inputs) : ℚ :=
  i.project_cost + option1_effective_interest_lakh i

/-- Line 342: the `capital_used` entry reported for option 1 is the raw
`own_capital` input. -/
def option1_capital_used (i : Inputs) : ℚ :=
  i.own_capital

/-! ### Option 2 of `calculate_comparison` (lines 222-248):
invest all own capital, full loan. -/

/-- Line 223: the whole project cost is borrowed. -/
def option2_loan_amount_lakh (i : Inputs) : ℚ :=
  i.project_cost

/-- Line 224. -/
def option2_loan_amount_actual (i : Inputs) : ℚ :=
  option2_loan_amount_lakh i * 100000

/-- Line 225. -/
def option2_emi (i : Inputs) : ℚ :=
  calculate_emi (option2_loan_amount_actual i) i.loan_rate i.loan_tenure

/-- Line 226. -/
def option2_total_payment (i : Inputs) : ℚ :=
  option2_emi i * 12 * (i.loan_tenure : ℚ)

/-- Line 227. -/
def option2_total_interest (i : Inputs) : ℚ :=
  option2_total_payment i - option2_loan_amount_actual i

/-- Lines 230-232. -/
def option2_effective_interest (i : Inputs) : ℚ :=
  if i.loan_interest_deductible then
    option2_total_interest i * (1 - i.tax_rate / 100)
  else option2_total_interest i

/-- Lines 235-240: growth of the invested own capital (already in lakh)
over the full tenure, computed unconditionally. -/
def investment_maturity_value_option2 (i : Inputs) : ℚ :=
  calculate_investment_growth i.own_capital i.investment_return
    i.loan_tenure i.compounding

/-- Line 241. -/
def investment_gain_option2 (i : Inputs) : ℚ :=
  investment_maturity_value_option2 i - i.own_capital

/-- Line 242. -/
def post_tax_gain_option2 (i : Inputs) : ℚ :=
  investment_gain_option2 i * (1 - i.tax_rate / 100)

/-- Line 245: net cost of option 2. -/
def option2_net_outflow (i : Inputs) : ℚ :=
  i.project_cost + option2_effective_interest i / 100000 -
    post_tax_gain_option2 i

/-! ### Option 3 of `calculate_comparison` (lines 251-289):
custom capital contribution plus loan. -/

/-- Line 252. -/
def option3_capital_used (i : Inputs) : ℚ :=
  i.custom_capital_contribution

/-- Line 253. -/
def option3_loan_amount_lakh (i : Inputs) : ℚ :=
  max 0 (i.project_cost - option3_capital_used i)

/-- Line 254. -/
def option3_loan_amount_actual (i : Inputs) : ℚ :=
  option3_loan_amount_lakh i * 100000

/-- Line 256. -/
def option3_emi (i : Inputs) : ℚ :=
  calculate_emi (option3_loan_amount_actual i) i.loan_rate i.loan_tenure

/-- Line 257. -/
def option3_total_payment (i : Inputs) : ℚ :=
  option3_emi i * 12 * (i.loan_tenure : ℚ)

/-- Line 258. -/
def option3_total_interest (i : Inputs) : ℚ :=
  option3_total_payment i - option3_loan_amount_actual i

/-- Lines 261-263. -/
def option3_effective_interest (i : Inputs) : ℚ :=
  if i.loan_interest_deductible then
    option3_total_interest i * (1 - i.tax_rate / 100)
  else option3_total_interest i

/-- Line 265. -/
def option3_total_interest_lakh (i : Inputs) : ℚ :=
  option3_total_interest i / 100000

/-- Line 266. -/
def option3_effective_interest_lakh (i : Inputs) : ℚ :=
  option3_effective_interest i / 100000

/-- Line 270. -/
def option3_remaining_own_capital (i : Inputs) : ℚ :=
  i.own_capital - option3_capital_used i

/-- Lines 271-281: the maturity value is 0 unless some own capital remains
invested. -/
def option3_investment_maturity_value (i : Inputs) : ℚ :=
  if 0 < option3_remaining_own_capital i then
    calculate_investment_growth (option3_remaining_own_capital i)
      i.investment_return i.loan_tenure i.compounding
  else 0

/-- Lines 272, 282. -/
def option3_investment_gain (i : Inputs) : ℚ :=
  if 0 < option3_remaining_own_capital i then
    option3_investment_maturity_value i - option3_remaining_own_capital i
  else 0

/-- Lines 273, 283. -/
def option3_post_tax_gain (i : Inputs) : ℚ :=
  if 0 < option3_remaining_own_capital i then
    option3_investment_gain i * (1 - i.tax_rate / 100)
  else 0

/-- Line 286: net cost of option 3. -/
def option3_net_outflow (i : Inputs) : ℚ :=
  i.project_cost + option3_effective_interest_lakh i - option3_post_tax_gain i

/-! ### Recommender (lines 307-323). -/

/-- Identifier of a scenario, in the order the options are inserted into the
`all_net_outflows` dictionary (which is also the declared priority order). -/
inductive OptionId where
  | option1
  | option2
  | option3
deriving DecidableEq

/-- Position of a scenario in the fixed priority order
MaxOwnFunding, MaxLeverage, Balanced. -/
def OptionId.priority : OptionId → ℕ
  | .option1 => 1
  | .option2 => 2
  | .option3 => 3

/-- Net cost of each scenario, the values of the `all_net_outflows`
dictionary (lines 308-312). -/
def net_outflow_of (i : Inputs) : OptionId → ℚ
  | .option1 => option1_net_outflow i
  | .option2 => option2_net_outflow i
  | .option3 => option3_net_outflow i

/-- Line 314: `min(all_net_outflows.values())`. -/
def min_net_outflow_value (i : Inputs) : ℚ :=
  min (option1_net_outflow i)
    (min (option2_net_outflow i) (option3_net_outflow i))

/-- Line 322: `max(all_net_outflows.values())`. -/
def max_net_outflow_value (i : Inputs) : ℚ :=
  max (option1_net_outflow i)
    (max (option2_net_outflow i) (option3_net_outflow i))

/-- Lines 316-320: the first key (in insertion order, which since
Python 3.7 is the construction order option1, option2, option3) whose net
outflow equals the minimum. -/
def recommendation (i : Inputs) : OptionId :=
  if option1_net_outflow i = min_net_outflow_value i then .option1
  else if option2_net_outflow i = min_net_outflow_value i then .option2
  else .option3

/-- Line 323. -/
def savings_against_worst (i : Inputs) : ℚ :=
  max_net_outflow_value i - min_net_outflow_value i

/-! ### `generate_year_wise_data` (lines 91-196).

For each `year` in `range(loan_tenure + 1)` the loop computes one row of the
table.  Each cell is translated as a function of the input record and the
year; the full table is the list of rows. -/

/-- Lines 113-116: cumulative interest attributed to option 1 after `year`
years.  The amount paid so far uses the option-1 EMI of the aggregate result
(`results['option1']['emi']`); payments are counted against the principal
first, the excess is interest (converted back to lakh). -/
def yw_option1_interest_paid (i : Inputs) (year : ℕ) : ℚ :=
  let loanActual := option1_loan_amount_lakh i * 100000
  let paid := option1_emi i * 12 * (year : ℚ)
  let principalPaid := min paid loanActual
  max 0 (paid - principalPaid) / 100000

/-- Lines 120-123: cumulative net cost of option 1 at `year`. -/
def yw_option1_net_cost (i : Inputs) (year : ℕ) : ℚ :=
  let eff :=
    if i.loan_interest_deductible then
      yw_option1_interest_paid i year * (1 - i.tax_rate / 100)
    else yw_option1_interest_paid i year
  i.project_cost + eff

/-- Lines 127-130: cumulative interest of option 2 at `year` (the loan at
start is the full project cost). -/
def yw_option2_interest_paid (i : Inputs) (year : ℕ) : ℚ :=
  let loanActual := i.project_cost * 100000
  let paid := option2_emi i * 12 * (year : ℚ)
  let principalPaid := min paid loanActual
  max 0 (paid - principalPaid) / 100000

/-- Lines 136-143: value of the invested own capital at `year` (the
principal itself at year 0). -/
def yw_investment_value_option2 (i : Inputs) (year : ℕ) : ℚ :=
  if 0 < year then
    calculate_investment_growth i.own_capital i.investment_return year
      i.compounding
  else i.own_capital

/-- Line 144. -/
def yw_investment_gain_option2 (i : Inputs) (year : ℕ) : ℚ :=
  yw_investment_value_option2 i year - i.own_capital

/-- Line 145. -/
def yw_post_tax_gain_option2 (i : Inputs) (year : ℕ) : ℚ :=
  yw_investment_gain_option2 i year * (1 - i.tax_rate / 100)

/-- Lines 132-134, 148: cumulative net cost of option 2 at `year`. -/
def yw_option2_net_cost (i : Inputs) (year : ℕ) : ℚ :=
  let eff :=
    if i.loan_interest_deductible then
      yw_option2_interest_paid i year * (1 - i.tax_rate / 100)
    else yw_option2_interest_paid i year
  i.project_cost + eff - yw_post_tax_gain_option2 i year

/-- Lines 152-157: cumulative interest of option 3 at `year`. -/
def yw_option3_interest_paid (i : Inputs) (year : ℕ) : ℚ :=
  let loanActual := max 0 (i.project_cost - i.custom_capital_contribution) * 100000
  let paid := if 0 < year then option3_emi i * 12 * (year : ℚ) else 0
  let principalPaid := min paid loanActual
  max 0 (paid - principalPaid) / 100000

/-- Lines 163-171: value of the remaining own capital at `year`. -/
def yw_investment_value_option3 (i : Inputs) (year : ℕ) : ℚ :=
  let rem := i.own_capital - i.custom_capital_contribution
  if 0 < year ∧ 0 < rem then
    calculate_investment_growth rem i.investment_return year i.compounding
  else rem

/-- Line 172. -/
def yw_investment_gain_option3 (i : Inputs) (year : ℕ) : ℚ :=
  yw_investment_value_option3 i year -
    (i.own_capital - i.custom_capital_contribution)

/-- Line 173. -/
def yw_post_tax_gain_option3 (i : Inputs) (year : ℕ) : ℚ :=
  yw_investment_gain_option3 i year * (1 - i.tax_rate / 100)

/-- Lines 159-161, 176: cumulative net cost of option 3 at `year`. -/
def yw_option3_net_cost (i : Inputs) (year : ℕ) : ℚ :=
  let eff :=
    if i.loan_interest_deductible then
      yw_option3_interest_paid i year * (1 - i.tax_rate / 100)
    else yw_option3_interest_paid i year
  i.project_cost + eff - yw_post_tax_gain_option3 i year

/-- One row of the year-wise table, in the column order of lines 94-108. -/
structure YearRow where
  year : ℕ
  option1_interest_paid : ℚ
  option2_interest_paid : ℚ
  option3_interest_paid : ℚ
  investment_value_option2 : ℚ
  investment_value_option3 : ℚ
  investment_gain_option2 : ℚ
  investment_gain_option3 : ℚ
  post_tax_gain_option2 : ℚ
  post_tax_gain_option3 : ℚ
  option1_net_cost_cumulative : ℚ
  option2_net_cost_cumulative : ℚ
  option3_net_cost_cumulative : ℚ
deriving DecidableEq

/-- The row appended at lines 179-193 for a given `year`. -/
def year_row (i : Inputs) (year : ℕ) : YearRow where
  year := year
  option1_interest_paid := yw_option1_interest_paid i year
  option2_interest_paid := yw_option2_interest_paid i year
  option3_interest_paid := yw_option3_interest_paid i year
  investment_value_option2 := yw_investment_value_option2 i year
  investment_value_option3 := yw_investment_value_option3 i year
  investment_gain_option2 := yw_investment_gain_option2 i year
  investment_gain_option3 := yw_investment_gain_option3 i year
  post_tax_gain_option2 := yw_post_tax_gain_option2 i year
  post_tax_gain_option3 := yw_post_tax_gain_option3 i year
  option1_net_cost_cumulative := yw_option1_net_cost i year
  option2_net_cost_cumulative := yw_option2_net_cost i year
  option3_net_cost_cumulative := yw_option3_net_cost i year

/-- The whole table: one row per `year` in `range(loan_tenure + 1)`
(line 111). -/
def generate_year_wise_data (i : Inputs) : List YearRow :=
  (List.range (i.loan_tenure + 1)).map (year_row i)

/-! ### Reference definitions taken from the specification text.

These follow the words of the spec (§4.2 steps 1-5 and the year-wise
variant) and are compared against the code-derived definitions above in the
refinement claims. -/

/-- Following the spec, steps 2-3 and the unit conversion of step 5, with
`loan_tenure` replaced by `year`: gross interest of a loan of `loan_lakh`
serviced for `year` years, tax shield applied, result in lakh. -/
def replay_net_interest_lakh (i : Inputs) (loan_lakh : ℚ) (year : ℕ) : ℚ :=
  let loanActual := loan_lakh * 100000
  let installment := calculate_emi loanActual i.loan_rate year
  let total_payment := installment * 12 * (year : ℚ)
  let gross := total_payment - loanActual
  let netInterest :=
    if i.loan_interest_deductible then gross * (1 - i.tax_rate / 100)
    else gross
  netInterest / 100000

/-- Following the spec, step 2 only, with `loan_tenure` replaced by `year`:
the gross (pre-tax) interest of a loan of `loan_lakh` serviced for `year`
years, in lakh. -/
def replay_gross_interest_lakh (i : Inputs) (loan_lakh : ℚ) (year : ℕ) : ℚ :=
  (calculate_emi (loan_lakh * 100000) i.loan_rate year * 12 * (year : ℚ) -
    loan_lakh * 100000) / 100000

/-- Following the spec, step 4, with `loan_tenure` replaced by `year`:
maturity value of the idle capital, 0 when there is none. -/
def replay_investment_maturity (i : Inputs) (idle : ℚ) (year : ℕ) : ℚ :=
  if 0 < idle then
    calculate_investment_growth idle i.investment_return year i.compounding
  else 0

/-- Following the spec, step 4: gain of the idle capital at `year`. -/
def replay_investment_gain (i : Inputs) (idle : ℚ) (year : ℕ) : ℚ :=
  if 0 < idle then replay_investment_maturity i idle year - idle else 0

/-- Following the spec, step 4: after-tax gain of the idle capital at
`year`. -/
def replay_gain_after_tax (i : Inputs) (idle : ℚ) (year : ℕ) : ℚ :=
  replay_investment_gain i idle year * (1 - i.tax_rate / 100)

/-! ### Supporting lemmas -/

/-- Growing a zero principal yields zero, at every frequency. -/
lemma calculate_investment_growth_zero_principal (r : ℚ) (y : ℕ)
    (c : Compounding) : calculate_investment_growth 0 r y c = 0 := by
  cases c <;> simp [calculate_investment_growth]

/-- Growth over zero years is the identity. -/
lemma calculate_investment_growth_zero_years (p r : ℚ) (c : Compounding) :
    calculate_investment_growth p r 0 c = p := by
  cases c <;> simp [calculate_investment_growth]

/-- A zero principal has a zero installment. -/
lemma calculate_emi_zero_principal (r : ℚ) (T : ℕ) :
    calculate_emi 0 r T = 0 := by
  simp [calculate_emi]

/-- The zero-rate branch of `calculate_emi`. -/
lemma calculate_emi_rate_zero {L : ℚ} (T : ℕ) (hL : L ≠ 0) :
    calculate_emi L 0 T = L / ((T : ℚ) * 12) := by
  simp [calculate_emi, hL]

/-- The annuity branch of `calculate_emi`. -/
lemma calculate_emi_rate_ne {L r : ℚ} (T : ℕ) (hL : L ≠ 0) (hr : r ≠ 0) :
    calculate_emi L r T =
      L * (r / (12 * 100)) * (1 + r / (12 * 100)) ^ (T * 12) /
        ((1 + r / (12 * 100)) ^ (T * 12) - 1) := by
  have hmr : r / (12 * 100) ≠ 0 := div_ne_zero hr (by norm_num)
  simp [calculate_emi, hL, hr, hmr]

/-- Geometric bound: for `x ≥ 1`, `x^n - 1 ≤ n·(x-1)·x^n`. -/
lemma geom_aux_le (x : ℚ) (hx : 1 ≤ x) (n : ℕ) :
    x ^ n - 1 ≤ (n : ℚ) * ((x - 1) * x ^ n) := by
  have hsum : (∑ k ∈ Finset.range n, x ^ k) * (x - 1) = x ^ n - 1 :=
    geom_sum_mul x n
  have hb : ∑ k ∈ Finset.range n, x ^ k ≤ (n : ℚ) * x ^ n := by
    calc ∑ k ∈ Finset.range n, x ^ k ≤ ∑ _k ∈ Finset.range n, x ^ n := by
          refine Finset.sum_le_sum fun k hk => ?_
          exact pow_le_pow_right₀ hx (Nat.le_of_lt (Finset.mem_range.mp hk))
      _ = (n : ℚ) * x ^ n := by
          rw [Finset.sum_const, Finset.card_range, nsmul_eq_mul]
  have hx0 : 0 ≤ x - 1 := by linarith
  calc x ^ n - 1 = (∑ k ∈ Finset.range n, x ^ k) * (x - 1) := hsum.symm
    _ ≤ (n : ℚ) * x ^ n * (x - 1) := mul_le_mul_of_nonneg_right hb hx0
    _ = (n : ℚ) * ((x - 1) * x ^ n) := by ring

/-- Strict geometric bound: for `x > 1` and `n ≥ 1`,
`x^n - 1 < n·(x-1)·x^n`. -/
lemma geom_aux_lt (x : ℚ) (hx : 1 < x) {n : ℕ} (hn : 0 < n) :
    x ^ n - 1 < (n : ℚ) * ((x - 1) * x ^ n) := by
  have hsum : (∑ k ∈ Finset.range n, x ^ k) * (x - 1) = x ^ n - 1 :=
    geom_sum_mul x n
  have hb : ∑ k ∈ Finset.range n, x ^ k < (n : ℚ) * x ^ n := by
    calc ∑ k ∈ Finset.range n, x ^ k < ∑ _k ∈ Finset.range n, x ^ n := by
          refine Finset.sum_lt_sum_of_nonempty
            (Finset.nonempty_range_iff.mpr hn.ne') fun k hk => ?_
          exact pow_lt_pow_right₀ hx (Finset.mem_range.mp hk)
      _ = (n : ℚ) * x ^ n := by
          rw [Finset.sum_const, Finset.card_range, nsmul_eq_mul]
  have hx0 : 0 < x - 1 := by linarith
  calc x ^ n - 1 = (∑ k ∈ Finset.range n, x ^ k) * (x - 1) := hsum.symm
    _ < (n : ℚ) * x ^ n * (x - 1) := mul_lt_mul_of_pos_right hb hx0
    _ = (n : ℚ) * ((x - 1) * x ^ n) := by ring

/-- Over a positive tenure the total payment covers the principal whenever
the rate is non-negative. -/
lemma le_total_payment {L r : ℚ} {T : ℕ} (hL : 0 ≤ L) (hr : 0 ≤ r)
    (hT : 0 < T) : L ≤ calculate_emi L r T * 12 * (T : ℚ) := by
  rcases eq_or_lt_of_le hL with hL0 | hL0
  · rw [← hL0, calculate_emi_zero_principal]
    simp
  have hTQ : (0 : ℚ) < (T : ℚ) := by exact_mod_cast hT
  by_cases hr0 : r = 0
  · subst hr0
    rw [calculate_emi_rate_zero T hL0.ne']
    have h12T : ((T : ℚ) * 12) ≠ 0 := by positivity
    have : L / ((T : ℚ) * 12) * 12 * (T : ℚ) = L := by
      field_simp
      ring
    rw [this]
  · have hrpos : 0 < r := lt_of_le_of_ne hr (Ne.symm hr0)
    have hmr : 0 < r / (12 * 100) := by positivity
    have hx : 1 < 1 + r / (12 * 100) := by linarith
    have hn : T * 12 ≠ 0 := Nat.mul_ne_zero hT.ne' (by norm_num)
    have hq : 1 < (1 + r / (12 * 100)) ^ (T * 12) := one_lt_pow₀ hx hn
    have hq1 : 0 < (1 + r / (12 * 100)) ^ (T * 12) - 1 := sub_pos.mpr hq
    rw [calculate_emi_rate_ne T hL0.ne' hr0, div_mul_eq_mul_div,
      div_mul_eq_mul_div, le_div_iff₀ hq1]
    have key := geom_aux_le (1 + r / (12 * 100)) hx.le (T * 12)
    calc L * ((1 + r / (12 * 100)) ^ (T * 12) - 1)
        ≤ L * (((T * 12 : ℕ) : ℚ) *
            ((1 + r / (12 * 100) - 1) * (1 + r / (12 * 100)) ^ (T * 12))) :=
          mul_le_mul_of_nonneg_left key hL0.le
      _ = L * (r / (12 * 100)) * (1 + r / (12 * 100)) ^ (T * 12) * 12 *
            (T : ℚ) := by
          push_cast
          ring

/-- With a positive rate, positive principal and positive tenure the total
payment strictly exceeds the principal: some interest is always paid. -/
lemma lt_total_payment {L r : ℚ} {T : ℕ} (hL : 0 < L) (hr : 0 < r)
    (hT : 0 < T) : L < calculate_emi L r T * 12 * (T : ℚ) := by
  have hmr : 0 < r / (12 * 100) := by positivity
  have hx : 1 < 1 + r / (12 * 100) := by linarith
  have hn : 0 < T * 12 := by positivity
  have hq : 1 < (1 + r / (12 * 100)) ^ (T * 12) := one_lt_pow₀ hx hn.ne'
  have hq1 : 0 < (1 + r / (12 * 100)) ^ (T * 12) - 1 := sub_pos.mpr hq
  rw [calculate_emi_rate_ne T hL.ne' hr.ne', div_mul_eq_mul_div,
    div_mul_eq_mul_div, lt_div_iff₀ hq1]
  have key := geom_aux_lt (1 + r / (12 * 100)) hx hn
  calc L * ((1 + r / (12 * 100)) ^ (T * 12) - 1)
      < L * (((T * 12 : ℕ) : ℚ) *
          ((1 + r / (12 * 100) - 1) * (1 + r / (12 * 100)) ^ (T * 12))) :=
        mul_lt_mul_of_pos_left key hL
    _ = L * (r / (12 * 100)) * (1 + r / (12 * 100)) ^ (T * 12) * 12 *
          (T : ℚ) := by
        push_cast
        ring

/-- Principal-first attribution evaluated once the cumulative payment covers
the principal. -/
lemma max_min_attribution {L tp : ℚ} (htp : L ≤ tp) :
    max 0 (tp - min tp L) = tp - L := by
  rw [min_eq_right htp, max_eq_right (sub_nonneg.mpr htp)]

/-- Subtracting the clamped own capital behaves like subtracting the raw own
capital under the outer `max 0`. -/
lemma max_sub_min_eq (pc oc : ℚ) :
    max 0 (pc - min oc pc) = max 0 (pc - oc) := by
  rcases le_total oc pc with h | h
  · rw [min_eq_left h]
  · have h1 : pc - oc ≤ 0 := by linarith
    rw [min_eq_right h, sub_self, max_self, max_eq_left h1]

/-- The minimum of three rationals is one of them. -/
lemma min3_cases (a b c : ℚ) :
    min a (min b c) = a ∨ min a (min b c) = b ∨ min a (min b c) = c := by
  rcases min_choice a (min b c) with h | h
  · exact Or.inl h
  · rcases min_choice b c with h2 | h2
    · exact Or.inr (Or.inl (h.trans h2))
    · exact Or.inr (Or.inr (h.trans h2))

/-! ### Claim C3 -/

/-- Reference piecewise definition of the installment, following the words
of the spec (§4.1): 0 at zero principal, straight-line repayment at zero
rate, and the standard annuity formula with `r = rate/1200` and
`n = tenure × 12` otherwise. -/
def emiSpec (P r : ℚ) (T : ℕ) : ℚ :=
  if P = 0 then 0
  else if r = 0 then P / ((T : ℚ) * 12)
  else P * (r / 1200) * (1 + r / 1200) ^ (T * 12) /
    ((1 + r / 1200) ^ (T * 12) - 1)

/-- Claim C3: for every principal ≥ 0, annual rate ≥ 0 and tenure > 0,
`calculate_emi` conforms to the piecewise reference definition: 0 at zero
principal, `principal / (tenure × 12)` at zero rate, and the annuity
formula `P·r·(1+r)^n / ((1+r)^n − 1)` with `r = rate/1200`, `n = tenure×12`
otherwise. -/
theorem claim_c3_emi_piecewise (P r : ℚ) (T : ℕ) (hP : 0 ≤ P) (hr : 0 ≤ r)
    (hT : 0 < T) : calculate_emi P r T = emiSpec P r T := by
  by_cases hP0 : P = 0
  · subst hP0
    rw [calculate_emi_zero_principal, emiSpec]
    simp
  by_cases hr0 : r = 0
  · subst hr0
    rw [calculate_emi_rate_zero T hP0, emiSpec, if_neg hP0, if_pos rfl]
  · rw [calculate_emi_rate_ne T hP0 hr0, emiSpec, if_neg hP0, if_neg hr0]
    norm_num

/-- Witness for claim C3 at principal 100000, rate 0, tenure 2 years. -/
theorem claim_c3_emi_piecewise_witness :
    (0 : ℚ) ≤ 100000 ∧ (0 : ℚ) ≤ 0 ∧ 0 < 2 ∧
      calculate_emi 100000 0 2 = emiSpec 100000 0 2 :=
  ⟨by norm_num, le_refl 0, by norm_num,
    claim_c3_emi_piecewise 100000 0 2 (by norm_num) (le_refl 0) (by norm_num)⟩

/-! ### Claim C8 -/

/-- Claim C8 (code behaviour at the failing input): with a positive
principal, zero rate and zero tenure, `calculate_emi` is NOT guarded: the
source computes `principal / months` with `months = 0`, which raises
`ZeroDivisionError` in Python (modelled as `none`), instead of returning
the principal as the spec requires. -/
theorem claim_c8_zero_tenure_unguarded :
    calculate_emiChecked 100000 0 0 = none ∧
      calculate_emiChecked 100000 0 0 ≠ some 100000 := by
  constructor <;> decide

/-! ### Claim C2 -/

/-- Claim C2: the recommender picks a scenario whose net cost is the
minimum of the three net costs, the reported savings is
`max − min` and is non-negative, and on exact ties the chosen scenario is
the first in the fixed priority order option1, option2, option3 (the
insertion order of the dictionary, hence deterministic). -/
theorem claim_c2_recommender (i : Inputs) :
    net_outflow_of i (recommendation i) = min_net_outflow_value i ∧
    savings_against_worst i =
      max_net_outflow_value i - min_net_outflow_value i ∧
    0 ≤ savings_against_worst i ∧
    ∀ j : OptionId, net_outflow_of i j = min_net_outflow_value i →
      (recommendation i).priority ≤ j.priority := by
  have hmin1 : min_net_outflow_value i ≤ option1_net_outflow i :=
    min_le_left _ _
  have hmax1 : option1_net_outflow i ≤ max_net_outflow_value i :=
    le_max_left _ _
  refine ⟨?_, rfl, ?_, ?_⟩
  · rw [recommendation]
    split_ifs with h1 h2
    · exact h1
    · exact h2
    · rcases min3_cases (option1_net_outflow i) (option2_net_outflow i)
        (option3_net_outflow i) with h | h | h
      · exact absurd h.symm h1
      · exact absurd h.symm h2
      · exact h.symm
  · rw [savings_against_worst]
    linarith
  · intro j hj
    rw [recommendation]
    split_ifs with h1 h2
    · cases j <;> norm_num [OptionId.priority]
    · cases j
      · exact absurd hj h1
      · norm_num [OptionId.priority]
      · norm_num [OptionId.priority]
    · cases j
      · exact absurd hj h1
      · exact absurd hj h2
      · norm_num [OptionId.priority]

/-- Input for the claim C2 witness: all three scenarios tie at net cost 1. -/
def c2In : Inputs := ⟨1, 1, 0, 1, false, 0, 0, .annual, 1⟩

/-- Witness for claim C2: on a three-way tie the chosen scenario has the
minimal net cost and at least the priority of option 3. -/
theorem claim_c2_recommender_witness :
    net_outflow_of c2In (recommendation c2In) = min_net_outflow_value c2In ∧
      (recommendation c2In).priority ≤ OptionId.priority .option3 :=
  ⟨(claim_c2_recommender c2In).1,
    (claim_c2_recommender c2In).2.2.2 .option3 (by
      norm_num [net_outflow_of, min_net_outflow_value, option1_net_outflow,
        option2_net_outflow, option3_net_outflow,
        option1_effective_interest_lakh, option1_effective_interest,
        option1_total_interest, option1_total_payment, option1_emi,
        option1_loan_amount_actual, option1_loan_amount_lakh,
        option2_effective_interest, option2_total_interest,
        option2_total_payment, option2_emi, option2_loan_amount_actual,
        option2_loan_amount_lakh, post_tax_gain_option2,
        investment_gain_option2, investment_maturity_value_option2,
        option3_net_outflow, option3_effective_interest_lakh,
        option3_effective_interest, option3_total_interest,
        option3_total_payment, option3_emi, option3_loan_amount_actual,
        option3_loan_amount_lakh, option3_capital_used,
        option3_post_tax_gain, option3_investment_gain,
        option3_investment_maturity_value, option3_remaining_own_capital,
        calculate_investment_growth, calculate_emi, c2In, min_def,
        max_def])⟩

/-! ### Claim C4 -/

/-- Input refuting claim C4 as stated: own capital exceeds the project
cost. -/
def c4In : Inputs := ⟨150, 200, 0, 1, false, 0, 0, .annual, 0⟩

/-- Counterexample to claim C4 as stated: with `own_capital = 200` and
`project_cost = 150`, the reported `capital_used` of option 1 is the raw
own capital 200, not `min(own_capital, project_cost) = 150`. -/
theorem claim_c4_counterexample :
    option1_capital_used c4In ≠ min c4In.own_capital c4In.project_cost := by
  norm_num [option1_capital_used, c4In, min_def]

/-- Claim C4 as amended: option 1 reports `capital_used = own_capital`
(unclamped); its loan amount is `max(0, project_cost − own_capital)`, which
coincides with `max(0, project_cost − min(own_capital, project_cost))`; and
whenever own capital covers the project cost the loan amount and the EMI
are both 0. -/
theorem claim_c4_own_funding (i : Inputs) :
    option1_capital_used i = i.own_capital ∧
    option1_loan_amount_lakh i = max 0 (i.project_cost - i.own_capital) ∧
    option1_loan_amount_lakh i =
      max 0 (i.project_cost - min i.own_capital i.project_cost) ∧
    (i.project_cost ≤ i.own_capital →
      option1_loan_amount_lakh i = 0 ∧ option1_emi i = 0) := by
  refine ⟨rfl, rfl, (max_sub_min_eq _ _).symm, fun h => ?_⟩
  have hz : option1_loan_amount_lakh i = 0 := by
    rw [option1_loan_amount_lakh, max_eq_left (by linarith)]
  refine ⟨hz, ?_⟩
  rw [option1_emi, option1_loan_amount_actual, hz, zero_mul,
    calculate_emi_zero_principal]

/-- Witness for the amended claim C4 at the zero-loan input. -/
theorem claim_c4_own_funding_witness :
    option1_loan_amount_lakh c4In = 0 ∧ option1_emi c4In = 0 :=
  (claim_c4_own_funding c4In).2.2.2 (by norm_num [c4In])

/-! ### Claim C10 -/

/-- Claim C10: option 1 never invests, so its whole result depends only on
project cost, own capital, loan rate, loan tenure, deductibility and tax
rate — two inputs differing only in investment return and investment type
produce identical option 1 results. -/
theorem claim_c10_option1_no_investment (i j : Inputs)
    (h1 : i.project_cost = j.project_cost)
    (h2 : i.own_capital = j.own_capital) (h3 : i.loan_rate = j.loan_rate)
    (h4 : i.loan_tenure = j.loan_tenure)
    (h5 : i.loan_interest_deductible = j.loan_interest_deductible)
    (h6 : i.tax_rate = j.tax_rate) :
    option1_loan_amount_lakh i = option1_loan_amount_lakh j ∧
    option1_emi i = option1_emi j ∧
    option1_total_payment i = option1_total_payment j ∧
    option1_total_interest_lakh i = option1_total_interest_lakh j ∧
    option1_effective_interest_lakh i = option1_effective_interest_lakh j ∧
    option1_net_outflow i = option1_net_outflow j ∧
    option1_capital_used i = option1_capital_used j := by
  simp [option1_loan_amount_lakh, option1_emi, option1_total_payment,
    option1_total_interest_lakh, option1_total_interest,
    option1_effective_interest_lakh, option1_effective_interest,
    option1_net_outflow, option1_loan_amount_actual, option1_capital_used,
    h1, h2, h3, h4, h5, h6]

/-- First input of the claim C10 witness pair. -/
def c10In1 : Inputs := ⟨150, 100, 10, 7, true, 30, 7, .quarterly, 50⟩

/-- Second input of the claim C10 witness pair: same loan-side fields,
different investment return and compounding. -/
def c10In2 : Inputs := ⟨150, 100, 10, 7, true, 30, 12, .daily, 50⟩

/-- Witness for claim C10 at a concrete pair of inputs differing only in
the investment leg. -/
theorem claim_c10_option1_no_investment_witness :
    option1_net_outflow c10In1 = option1_net_outflow c10In2 :=
  (claim_c10_option1_no_investment c10In1 c10In2 rfl rfl rfl rfl rfl
    rfl).2.2.2.2.2.1

/-! ### Claim C1 -/

/-- On a non-negative own capital the spec's guarded idle-capital growth of
step 4 agrees with the unguarded option-2 computation of the code. -/
lemma replay_gain_eq_option2 (i : Inputs) (hoc : 0 ≤ i.own_capital) :
    replay_gain_after_tax i i.own_capital i.loan_tenure =
      post_tax_gain_option2 i := by
  rcases hoc.lt_or_eq with h | h
  · rw [replay_gain_after_tax, replay_investment_gain, if_pos h,
      replay_investment_maturity, if_pos h]
    rfl
  · rw [replay_gain_after_tax, replay_investment_gain,
      if_neg (by rw [← h]; exact lt_irrefl 0), post_tax_gain_option2,
      investment_gain_option2, investment_maturity_value_option2, ← h,
      calculate_investment_growth_zero_principal]
    ring

/-- The spec's guarded idle-capital growth of step 4 coincides with the
option-3 computation of the code, whose guard is the same. -/
lemma replay_gain_eq_option3 (i : Inputs) :
    replay_gain_after_tax i
      (i.own_capital - i.custom_capital_contribution) i.loan_tenure =
      option3_post_tax_gain i := by
  by_cases h : 0 < i.own_capital - i.custom_capital_contribution <;>
    simp [replay_gain_after_tax, replay_investment_gain,
      replay_investment_maturity, option3_post_tax_gain,
      option3_investment_gain, option3_investment_maturity_value,
      option3_remaining_own_capital, option3_capital_used, h]

/-- Claim C1: each scenario's net cost equals
`project_cost + net (post-tax-shield) loan interest in lakh − after-tax
investment gain`, with the loan amounts and gains given by the spec's
step-1 capital split (clamped custom contribution for the balanced
scenario) and step-4 guarded growth, and a zero gain term for option 1. -/
theorem claim_c1_net_cost_formula (i : Inputs) (hoc : 0 ≤ i.own_capital)
    (hc0 : 0 ≤ i.custom_capital_contribution)
    (hc1 : i.custom_capital_contribution ≤
      min i.own_capital i.project_cost) :
    option1_net_outflow i =
      i.project_cost + replay_net_interest_lakh i
        (max 0 (i.project_cost - min i.own_capital i.project_cost))
        i.loan_tenure - 0 ∧
    option2_net_outflow i =
      i.project_cost + replay_net_interest_lakh i i.project_cost
        i.loan_tenure -
        replay_gain_after_tax i i.own_capital i.loan_tenure ∧
    option3_net_outflow i =
      i.project_cost + replay_net_interest_lakh i
        (max 0 (i.project_cost -
          max 0 (min i.custom_capital_contribution
            (min i.own_capital i.project_cost))))
        i.loan_tenure -
      replay_gain_after_tax i
        (i.own_capital - i.custom_capital_contribution) i.loan_tenure := by
  refine ⟨?_, ?_, ?_⟩
  · rw [max_sub_min_eq, sub_zero]
    rfl
  · rw [replay_gain_eq_option2 i hoc]
    rfl
  · have hclamp : max 0 (min i.custom_capital_contribution
        (min i.own_capital i.project_cost)) =
        i.custom_capital_contribution := by
      rw [min_eq_left hc1, max_eq_right hc0]
    rw [hclamp, replay_gain_eq_option3 i]
    rfl

/-- Input for the claim C1 witness. -/
def c1In : Inputs := ⟨1, 1, 0, 1, false, 0, 0, .annual, 0⟩

/-- Witness for claim C1 at a concrete valid input (option 2 part). -/
theorem claim_c1_net_cost_formula_witness :
    option2_net_outflow c1In =
      c1In.project_cost + replay_net_interest_lakh c1In c1In.project_cost
        c1In.loan_tenure -
        replay_gain_after_tax c1In c1In.own_capital c1In.loan_tenure :=
  (claim_c1_net_cost_formula c1In (by norm_num [c1In])
    (by norm_num [c1In]) (by norm_num [c1In, min_def])).2.1

/-! ### Claim C6 -/

/-- Input refuting claim C6 as stated: own capital 2 exceeds project cost
1, the custom contribution is `min(own_capital, project_cost) = 1`, and
the surplus lakh invested at 100% for one year is worth 2. -/
def c6In : Inputs := ⟨1, 2, 0, 1, false, 0, 100, .annual, 1⟩

/-- Counterexample to claim C6 as stated: with
`custom_own_contribution = min(own_capital, project_cost)` but
`own_capital > project_cost`, option 3 still invests the surplus capital
while option 1 never invests, so their net costs differ (0 versus 1). -/
theorem claim_c6_counterexample :
    c6In.custom_capital_contribution =
      min c6In.own_capital c6In.project_cost ∧
    option3_net_outflow c6In ≠ option1_net_outflow c6In := by
  constructor
  · norm_num [c6In, min_def]
  · norm_num [option3_net_outflow, option1_net_outflow,
      option3_effective_interest_lakh, option1_effective_interest_lakh,
      option3_effective_interest, option1_effective_interest,
      option3_total_interest, option1_total_interest,
      option3_total_payment, option1_total_payment, option3_emi,
      option1_emi, option3_loan_amount_actual, option1_loan_amount_actual,
      option3_loan_amount_lakh, option1_loan_amount_lakh,
      option3_capital_used, option3_post_tax_gain, option3_investment_gain,
      option3_investment_maturity_value, option3_remaining_own_capital,
      calculate_investment_growth, calculate_emi, c6In, min_def, max_def]

/-- The input record with the balanced scenario's custom capital
contribution replaced by `c`. -/
def withCustom (i : Inputs) (c : ℚ) : Inputs :=
  {i with custom_capital_contribution := c}

@[simp] lemma withCustom_project_cost (i : Inputs) (c : ℚ) :
    (withCustom i c).project_cost = i.project_cost := rfl

@[simp] lemma withCustom_own_capital (i : Inputs) (c : ℚ) :
    (withCustom i c).own_capital = i.own_capital := rfl

@[simp] lemma withCustom_loan_rate (i : Inputs) (c : ℚ) :
    (withCustom i c).loan_rate = i.loan_rate := rfl

@[simp] lemma withCustom_loan_tenure (i : Inputs) (c : ℚ) :
    (withCustom i c).loan_tenure = i.loan_tenure := rfl

@[simp] lemma withCustom_deductible (i : Inputs) (c : ℚ) :
    (withCustom i c).loan_interest_deductible =
      i.loan_interest_deductible := rfl

@[simp] lemma withCustom_tax_rate (i : Inputs) (c : ℚ) :
    (withCustom i c).tax_rate = i.tax_rate := rfl

@[simp] lemma withCustom_investment_return (i : Inputs) (c : ℚ) :
    (withCustom i c).investment_return = i.investment_return := rfl

@[simp] lemma withCustom_compounding (i : Inputs) (c : ℚ) :
    (withCustom i c).compounding = i.compounding := rfl

@[simp] lemma withCustom_custom (i : Inputs) (c : ℚ) :
    (withCustom i c).custom_capital_contribution = c := rfl

/-- Claim C6 as amended: a zero custom contribution reduces option 3
exactly to option 2, and a custom contribution of
`min(own_capital, project_cost)` reduces option 3 exactly to option 1
provided the own capital does not exceed the project cost (otherwise the
surplus stays invested in option 3 while option 1 never invests). -/
theorem claim_c6_boundary (i : Inputs) (hpc : 0 ≤ i.project_cost)
    (hoc : 0 ≤ i.own_capital) :
    (option3_loan_amount_lakh (withCustom i 0) =
        option2_loan_amount_lakh i ∧
      option3_emi (withCustom i 0) = option2_emi i ∧
      option3_total_interest (withCustom i 0) = option2_total_interest i ∧
      option3_effective_interest (withCustom i 0) =
        option2_effective_interest i ∧
      option3_investment_maturity_value (withCustom i 0) =
        investment_maturity_value_option2 i ∧
      option3_investment_gain (withCustom i 0) =
        investment_gain_option2 i ∧
      option3_post_tax_gain (withCustom i 0) = post_tax_gain_option2 i ∧
      option3_net_outflow (withCustom i 0) = option2_net_outflow i) ∧
    (i.own_capital ≤ i.project_cost →
      option3_loan_amount_lakh
          (withCustom i (min i.own_capital i.project_cost)) =
        option1_loan_amount_lakh i ∧
      option3_emi (withCustom i (min i.own_capital i.project_cost)) =
        option1_emi i ∧
      option3_total_interest
          (withCustom i (min i.own_capital i.project_cost)) =
        option1_total_interest i ∧
      option3_effective_interest
          (withCustom i (min i.own_capital i.project_cost)) =
        option1_effective_interest i ∧
      option3_investment_maturity_value
          (withCustom i (min i.own_capital i.project_cost)) = 0 ∧
      option3_investment_gain
          (withCustom i (min i.own_capital i.project_cost)) = 0 ∧
      option3_post_tax_gain
          (withCustom i (min i.own_capital i.project_cost)) = 0 ∧
      option3_net_outflow
          (withCustom i (min i.own_capital i.project_cost)) =
        option1_net_outflow i) := by
  constructor
  · have ha1 : option3_loan_amount_lakh (withCustom i 0) =
        option2_loan_amount_lakh i := by
      simp [option3_loan_amount_lakh, option3_capital_used,
        option2_loan_amount_lakh, max_eq_right hpc]
    have ha2 : option3_emi (withCustom i 0) = option2_emi i := by
      simp [option3_emi, option2_emi, option3_loan_amount_actual,
        option2_loan_amount_actual, ha1]
    have ha3 : option3_total_interest (withCustom i 0) =
        option2_total_interest i := by
      simp [option3_total_interest, option2_total_interest,
        option3_total_payment, option2_total_payment,
        option3_loan_amount_actual, option2_loan_amount_actual, ha1, ha2]
    have ha4 : option3_effective_interest (withCustom i 0) =
        option2_effective_interest i := by
      simp [option3_effective_interest, option2_effective_interest, ha3]
    have ha5 : option3_investment_maturity_value (withCustom i 0) =
        investment_maturity_value_option2 i := by
      rcases hoc.lt_or_eq with h | h
      · simp [option3_investment_maturity_value,
          option3_remaining_own_capital, option3_capital_used,
          investment_maturity_value_option2, h]
      · simp [option3_investment_maturity_value,
          option3_remaining_own_capital, option3_capital_used,
          investment_maturity_value_option2, ← h,
          calculate_investment_growth_zero_principal]
    have ha6 : option3_investment_gain (withCustom i 0) =
        investment_gain_option2 i := by
      rcases hoc.lt_or_eq with h | h
      · simp [option3_investment_gain, option3_remaining_own_capital,
          option3_capital_used, investment_gain_option2, ha5, h]
      · simp [option3_investment_gain, option3_remaining_own_capital,
          option3_capital_used, investment_gain_option2,
          investment_maturity_value_option2, ← h,
          calculate_investment_growth_zero_principal]
    have ha7 : option3_post_tax_gain (withCustom i 0) =
        post_tax_gain_option2 i := by
      rcases hoc.lt_or_eq with h | h
      · simp [option3_post_tax_gain, option3_remaining_own_capital,
          option3_capital_used, post_tax_gain_option2, ha6, h]
      · simp [option3_post_tax_gain, option3_remaining_own_capital,
          option3_capital_used, post_tax_gain_option2,
          investment_gain_option2, investment_maturity_value_option2,
          ← h, calculate_investment_growth_zero_principal]
    refine ⟨ha1, ha2, ha3, ha4, ha5, ha6, ha7, ?_⟩
    simp [option3_net_outflow, option2_net_outflow,
      option3_effective_interest_lakh, ha4, ha7]
  · intro hle
    have hmin : min i.own_capital i.project_cost = i.own_capital :=
      min_eq_left hle
    have hb1 : option3_loan_amount_lakh
        (withCustom i (min i.own_capital i.project_cost)) =
        option1_loan_amount_lakh i := by
      simp [option3_loan_amount_lakh, option3_capital_used,
        option1_loan_amount_lakh, hmin]
    have hb2 : option3_emi
        (withCustom i (min i.own_capital i.project_cost)) =
        option1_emi i := by
      simp [option3_emi, option1_emi, option3_loan_amount_actual,
        option1_loan_amount_actual, hb1]
    have hb3 : option3_total_interest
        (withCustom i (min i.own_capital i.project_cost)) =
        option1_total_interest i := by
      simp [option3_total_interest, option1_total_interest,
        option3_total_payment, option1_total_payment,
        option3_loan_amount_actual, option1_loan_amount_actual, hb1, hb2]
    have hb4 : option3_effective_interest
        (withCustom i (min i.own_capital i.project_cost)) =
        option1_effective_interest i := by
      simp [option3_effective_interest, option1_effective_interest, hb3]
    have hrem : option3_remaining_own_capital
        (withCustom i (min i.own_capital i.project_cost)) = 0 := by
      simp [option3_remaining_own_capital, option3_capital_used, hmin]
    have hb5 : option3_investment_maturity_value
        (withCustom i (min i.own_capital i.project_cost)) = 0 := by
      simp [option3_investment_maturity_value, hrem]
    have hb6 : option3_investment_gain
        (withCustom i (min i.own_capital i.project_cost)) = 0 := by
      simp [option3_investment_gain, hrem]
    have hb7 : option3_post_tax_gain
        (withCustom i (min i.own_capital i.project_cost)) = 0 := by
      simp [option3_post_tax_gain, hrem]
    refine ⟨hb1, hb2, hb3, hb4, hb5, hb6, hb7, ?_⟩
    simp [option3_net_outflow, option1_net_outflow,
      option3_effective_interest_lakh, option1_effective_interest_lakh,
      hb4, hb7]

/-- Input for the claim C6 witness: own capital 1 within project cost 2. -/
def c6wIn : Inputs := ⟨2, 1, 0, 1, false, 0, 0, .annual, 0⟩

/-- Witness for the amended claim C6 at a concrete input (net-cost parts of
both boundary reductions). -/
theorem claim_c6_boundary_witness :
    option3_net_outflow (withCustom c6wIn 0) = option2_net_outflow c6wIn ∧
    option3_net_outflow
        (withCustom c6wIn (min c6wIn.own_capital c6wIn.project_cost)) =
      option1_net_outflow c6wIn :=
  ⟨(claim_c6_boundary c6wIn (by norm_num [c6wIn])
      (by norm_num [c6wIn])).1.2.2.2.2.2.2.2,
    ((claim_c6_boundary c6wIn (by norm_num [c6wIn])
      (by norm_num [c6wIn])).2 (by norm_num [c6wIn])).2.2.2.2.2.2.2⟩

/-! ### Claim C7 -/

/-- With a positive principal, rate and tenure the gross loan interest is
strictly positive. -/
lemma total_interest_pos {L r : ℚ} {T : ℕ} (hL : 0 < L) (hr : 0 < r)
    (hT : 0 < T) : 0 < calculate_emi L r T * 12 * (T : ℚ) - L :=
  sub_pos.mpr (lt_total_payment hL hr hT)

/-- Input refuting claim C7 as stated: own capital fully covers the
project, so option 1 has a zero loan and zero interest either way. -/
def c7In : Inputs := ⟨1, 1, 10, 1, false, 30, 0, .annual, 0⟩

/-- Counterexample to claim C7 as stated: at a valid input with
`tax_rate = 30 > 0` but a zero option-1 loan, enabling deductibility does
not strictly decrease option 1's net interest (both are 0). -/
theorem claim_c7_counterexample :
    ¬ (option1_effective_interest
        {c7In with loan_interest_deductible := true} <
      option1_effective_interest
        {c7In with loan_interest_deductible := false}) := by
  norm_num [option1_effective_interest, option1_total_interest,
    option1_total_payment, option1_emi, option1_loan_amount_actual,
    option1_loan_amount_lakh, calculate_emi, c7In, max_def]

/-- Claim C7 as amended: the net interest is
`gross × (1 − tax_rate/100)` when deductible and the gross interest
unchanged otherwise, and for `tax_rate > 0` enabling deductibility
strictly decreases a scenario's net interest whenever that scenario's
gross interest is positive, i.e. its loan amount and the loan rate are
positive. -/
theorem claim_c7_tax_shield (i : Inputs) (ht : 0 < i.tax_rate)
    (hr : 0 < i.loan_rate) (hT : 0 < i.loan_tenure) :
    (option1_effective_interest {i with loan_interest_deductible := true} =
        option1_total_interest i * (1 - i.tax_rate / 100) ∧
      option1_effective_interest
          {i with loan_interest_deductible := false} =
        option1_total_interest i) ∧
    (0 < option1_loan_amount_lakh i →
      option1_effective_interest {i with loan_interest_deductible := true} <
        option1_effective_interest
          {i with loan_interest_deductible := false}) ∧
    (0 < i.project_cost →
      option2_effective_interest {i with loan_interest_deductible := true} <
        option2_effective_interest
          {i with loan_interest_deductible := false}) ∧
    (0 < option3_loan_amount_lakh i →
      option3_effective_interest {i with loan_interest_deductible := true} <
        option3_effective_interest
          {i with loan_interest_deductible := false}) := by
  have htax : 0 < i.tax_rate / 100 :=
    div_pos ht (by norm_num)
  refine ⟨⟨rfl, rfl⟩, ?_, ?_, ?_⟩
  · intro hl
    have hLpos : 0 < option1_loan_amount_actual i := by
      rw [option1_loan_amount_actual]
      exact mul_pos hl (by norm_num)
    have hg : 0 < option1_total_interest i :=
      total_interest_pos hLpos hr hT
    have e1 : option1_effective_interest
        {i with loan_interest_deductible := true} =
        option1_total_interest i * (1 - i.tax_rate / 100) := rfl
    have e2 : option1_effective_interest
        {i with loan_interest_deductible := false} =
        option1_total_interest i := rfl
    rw [e1, e2]
    nlinarith [mul_pos hg htax]
  · intro hl
    have hLpos : 0 < option2_loan_amount_actual i := by
      rw [option2_loan_amount_actual]
      exact mul_pos hl (by norm_num)
    have hg : 0 < option2_total_interest i :=
      total_interest_pos hLpos hr hT
    have e1 : option2_effective_interest
        {i with loan_interest_deductible := true} =
        option2_total_interest i * (1 - i.tax_rate / 100) := rfl
    have e2 : option2_effective_interest
        {i with loan_interest_deductible := false} =
        option2_total_interest i := rfl
    rw [e1, e2]
    nlinarith [mul_pos hg htax]
  · intro hl
    have hLpos : 0 < option3_loan_amount_actual i := by
      rw [option3_loan_amount_actual]
      exact mul_pos hl (by norm_num)
    have hg : 0 < option3_total_interest i :=
      total_interest_pos hLpos hr hT
    have e1 : option3_effective_interest
        {i with loan_interest_deductible := true} =
        option3_total_interest i * (1 - i.tax_rate / 100) := rfl
    have e2 : option3_effective_interest
        {i with loan_interest_deductible := false} =
        option3_total_interest i := rfl
    rw [e1, e2]
    nlinarith [mul_pos hg htax]

/-- Input for the claim C7 witness: no own capital, so option 1 carries a
positive loan. -/
def c7wIn : Inputs := ⟨1, 0, 12, 1, false, 30, 0, .annual, 0⟩

/-- Witness for the amended claim C7: with a positive loan, positive rate
and positive tax rate, the tax shield strictly reduces option 1's net
interest. -/
theorem claim_c7_tax_shield_witness :
    option1_effective_interest
        {c7wIn with loan_interest_deductible := true} <
      option1_effective_interest
        {c7wIn with loan_interest_deductible := false} :=
  (claim_c7_tax_shield c7wIn (by norm_num [c7wIn]) (by norm_num [c7wIn])
    (by norm_num [c7wIn])).2.1
    (by norm_num [c7wIn, option1_loan_amount_lakh, max_def])

/-! ### Claim C5 -/

/-- The option-1 loan amount is never negative. -/
lemma option1_loan_lakh_nonneg (i : Inputs) :
    0 ≤ option1_loan_amount_lakh i := le_max_left 0 _

/-- The option-3 loan amount is never negative. -/
lemma option3_loan_lakh_nonneg (i : Inputs) :
    0 ≤ option3_loan_amount_lakh i := le_max_left 0 _

/-- Principal-first attribution of a zero cumulative payment. -/
lemma yw_interest_zero_aux {L : ℚ} (hL : 0 ≤ L) :
    max 0 ((0 : ℚ) - min 0 L) / 100000 = 0 := by
  rw [min_eq_left hL]
  simp

/-- Option 1's year-wise interest column is 0 at year 0. -/
lemma yw1_interest_zero (i : Inputs) : yw_option1_interest_paid i 0 = 0 := by
  simp only [yw_option1_interest_paid, Nat.cast_zero, mul_zero]
  exact yw_interest_zero_aux
    (mul_nonneg (option1_loan_lakh_nonneg i) (by norm_num))

/-- Option 2's year-wise interest column is 0 at year 0. -/
lemma yw2_interest_zero (i : Inputs) (hpc : 0 ≤ i.project_cost) :
    yw_option2_interest_paid i 0 = 0 := by
  simp only [yw_option2_interest_paid, Nat.cast_zero, mul_zero]
  exact yw_interest_zero_aux (mul_nonneg hpc (by norm_num))

/-- Option 3's year-wise interest column is 0 at year 0. -/
lemma yw3_interest_zero (i : Inputs) : yw_option3_interest_paid i 0 = 0 := by
  simp only [yw_option3_interest_paid, lt_self_iff_false, if_false]
  exact yw_interest_zero_aux
    (mul_nonneg (le_max_left 0 _) (by norm_num))

/-- Option 2's year-wise investment gain column is 0 at year 0. -/
lemma yw2_gain_zero (i : Inputs) : yw_investment_gain_option2 i 0 = 0 := by
  simp [yw_investment_gain_option2, yw_investment_value_option2]

/-- Option 2's year-wise post-tax gain column is 0 at year 0. -/
lemma yw2_ptg_zero (i : Inputs) : yw_post_tax_gain_option2 i 0 = 0 := by
  rw [yw_post_tax_gain_option2, yw2_gain_zero, zero_mul]

/-- Option 3's year-wise investment gain column is 0 at year 0. -/
lemma yw3_gain_zero (i : Inputs) : yw_investment_gain_option3 i 0 = 0 := by
  simp [yw_investment_gain_option3, yw_investment_value_option3]

/-- Option 3's year-wise post-tax gain column is 0 at year 0. -/
lemma yw3_ptg_zero (i : Inputs) : yw_post_tax_gain_option3 i 0 = 0 := by
  rw [yw_post_tax_gain_option3, yw3_gain_zero, zero_mul]

/-- Option 2's year-wise investment value column replays the spec's step 4
at every year. -/
lemma yw_value2_replay (i : Inputs) (hoc : 0 ≤ i.own_capital) (y : ℕ) :
    yw_investment_value_option2 i y =
      replay_investment_maturity i i.own_capital y := by
  rcases hoc.lt_or_eq with h | h
  · rw [replay_investment_maturity, if_pos h, yw_investment_value_option2]
    rcases Nat.eq_zero_or_pos y with hy | hy
    · subst hy
      rw [if_neg (lt_irrefl 0), calculate_investment_growth_zero_years]
    · rw [if_pos hy]
  · rw [replay_investment_maturity,
      if_neg (by rw [← h]; exact lt_irrefl 0),
      yw_investment_value_option2, ← h]
    split_ifs with hy
    · rw [calculate_investment_growth_zero_principal]
    · rfl

/-- Option 2's year-wise investment gain column replays the spec's step 4
at every year. -/
lemma yw_gain2_replay (i : Inputs) (hoc : 0 ≤ i.own_capital) (y : ℕ) :
    yw_investment_gain_option2 i y =
      replay_investment_gain i i.own_capital y := by
  rw [yw_investment_gain_option2, yw_value2_replay i hoc y,
    replay_investment_gain]
  rcases hoc.lt_or_eq with h | h
  · rw [if_pos h]
  · rw [if_neg (by rw [← h]; exact lt_irrefl 0),
      replay_investment_maturity,
      if_neg (by rw [← h]; exact lt_irrefl 0), ← h]
    simp

/-- Option 2's year-wise post-tax gain column replays the spec's step 4 at
every year. -/
lemma yw_ptg2_replay (i : Inputs) (hoc : 0 ≤ i.own_capital) (y : ℕ) :
    yw_post_tax_gain_option2 i y =
      replay_gain_after_tax i i.own_capital y := by
  rw [yw_post_tax_gain_option2, yw_gain2_replay i hoc y,
    replay_gain_after_tax]

/-- Option 3's year-wise investment value column replays the spec's step 4
at every year. -/
lemma yw_value3_replay (i : Inputs)
    (hrem : 0 ≤ i.own_capital - i.custom_capital_contribution) (y : ℕ) :
    yw_investment_value_option3 i y =
      replay_investment_maturity i
        (i.own_capital - i.custom_capital_contribution) y := by
  simp only [yw_investment_value_option3, replay_investment_maturity]
  rcases hrem.lt_or_eq with h | h
  · rw [if_pos h]
    rcases Nat.eq_zero_or_pos y with hy | hy
    · subst hy
      rw [if_neg (by simp), calculate_investment_growth_zero_years]
    · rw [if_pos ⟨hy, h⟩]
  · rw [if_neg (by rw [← h]; simp),
      if_neg (by rw [← h]; exact lt_irrefl 0)]
    exact h.symm

/-- Option 3's year-wise investment gain column replays the spec's step 4
at every year. -/
lemma yw_gain3_replay (i : Inputs)
    (hrem : 0 ≤ i.own_capital - i.custom_capital_contribution) (y : ℕ) :
    yw_investment_gain_option3 i y =
      replay_investment_gain i
        (i.own_capital - i.custom_capital_contribution) y := by
  rw [yw_investment_gain_option3, yw_value3_replay i hrem y,
    replay_investment_gain]
  rcases hrem.lt_or_eq with h | h
  · rw [if_pos h]
  · rw [if_neg (by rw [← h]; exact lt_irrefl 0),
      replay_investment_maturity,
      if_neg (by rw [← h]; exact lt_irrefl 0), ← h]
    simp

/-- Option 3's year-wise post-tax gain column replays the spec's step 4 at
every year. -/
lemma yw_ptg3_replay (i : Inputs)
    (hrem : 0 ≤ i.own_capital - i.custom_capital_contribution) (y : ℕ) :
    yw_post_tax_gain_option3 i y =
      replay_gain_after_tax i
        (i.own_capital - i.custom_capital_contribution) y := by
  rw [yw_post_tax_gain_option3, yw_gain3_replay i hrem y,
    replay_gain_after_tax]

/-- At the final year option 1's year-wise interest equals the aggregate
gross interest (in lakh). -/
lemma yw1_interest_endpoint (i : Inputs) (hr : 0 ≤ i.loan_rate)
    (hT : 0 < i.loan_tenure) :
    yw_option1_interest_paid i i.loan_tenure =
      option1_total_interest_lakh i := by
  have htp : option1_loan_amount_lakh i * 100000 ≤
      option1_emi i * 12 * (i.loan_tenure : ℚ) :=
    le_total_payment
      (mul_nonneg (option1_loan_lakh_nonneg i) (by norm_num)) hr hT
  simp only [yw_option1_interest_paid]
  rw [max_min_attribution htp]
  rfl

/-- At the final year option 2's year-wise interest equals the aggregate
gross interest (in lakh). -/
lemma yw2_interest_endpoint (i : Inputs) (hpc : 0 ≤ i.project_cost)
    (hr : 0 ≤ i.loan_rate) (hT : 0 < i.loan_tenure) :
    yw_option2_interest_paid i i.loan_tenure =
      option2_total_interest i / 100000 := by
  have htp : i.project_cost * 100000 ≤
      option2_emi i * 12 * (i.loan_tenure : ℚ) :=
    le_total_payment (mul_nonneg hpc (by norm_num)) hr hT
  simp only [yw_option2_interest_paid]
  rw [max_min_attribution htp]
  rfl

/-- At the final year option 3's year-wise interest equals the aggregate
gross interest (in lakh). -/
lemma yw3_interest_endpoint (i : Inputs) (hr : 0 ≤ i.loan_rate)
    (hT : 0 < i.loan_tenure) :
    yw_option3_interest_paid i i.loan_tenure =
      option3_total_interest_lakh i := by
  have htp : max 0 (i.project_cost - i.custom_capital_contribution) *
      100000 ≤ option3_emi i * 12 * (i.loan_tenure : ℚ) :=
    le_total_payment (mul_nonneg (le_max_left 0 _) (by norm_num)) hr hT
  simp only [yw_option3_interest_paid]
  rw [if_pos hT, max_min_attribution htp]
  rfl

/-- At the final year option 2's year-wise investment value equals the
aggregate maturity value. -/
lemma yw_value2_endpoint (i : Inputs) (hT : 0 < i.loan_tenure) :
    yw_investment_value_option2 i i.loan_tenure =
      investment_maturity_value_option2 i := by
  rw [yw_investment_value_option2, if_pos hT]
  rfl

/-- At the final year option 2's year-wise investment gain equals the
aggregate gain. -/
lemma yw_gain2_endpoint (i : Inputs) (hT : 0 < i.loan_tenure) :
    yw_investment_gain_option2 i i.loan_tenure =
      investment_gain_option2 i := by
  rw [yw_investment_gain_option2, yw_value2_endpoint i hT]
  rfl

/-- At the final year option 2's year-wise post-tax gain equals the
aggregate post-tax gain. -/
lemma yw_ptg2_endpoint (i : Inputs) (hT : 0 < i.loan_tenure) :
    yw_post_tax_gain_option2 i i.loan_tenure = post_tax_gain_option2 i := by
  rw [yw_post_tax_gain_option2, yw_gain2_endpoint i hT]
  rfl

/-- At the final year option 3's year-wise investment value equals the
aggregate maturity value. -/
lemma yw_value3_endpoint (i : Inputs) (hT : 0 < i.loan_tenure)
    (hrem : 0 ≤ i.own_capital - i.custom_capital_contribution) :
    yw_investment_value_option3 i i.loan_tenure =
      option3_investment_maturity_value i := by
  simp only [yw_investment_value_option3,
    option3_investment_maturity_value, option3_remaining_own_capital,
    option3_capital_used]
  rcases hrem.lt_or_eq with h | h
  · rw [if_pos ⟨hT, h⟩, if_pos h]
  · rw [if_neg (by rw [← h]; simp),
      if_neg (by rw [← h]; exact lt_irrefl 0)]
    exact h.symm

/-- At the final year option 3's year-wise investment gain equals the
aggregate gain. -/
lemma yw_gain3_endpoint (i : Inputs) (hT : 0 < i.loan_tenure)
    (hrem : 0 ≤ i.own_capital - i.custom_capital_contribution) :
    yw_investment_gain_option3 i i.loan_tenure =
      option3_investment_gain i := by
  rw [yw_investment_gain_option3, yw_value3_endpoint i hT hrem]
  simp only [option3_investment_gain, option3_remaining_own_capital,
    option3_capital_used]
  rcases hrem.lt_or_eq with h | h
  · rw [if_pos h]
  · rw [if_neg (by rw [← h]; exact lt_irrefl 0)]
    simp only [option3_investment_maturity_value,
      option3_remaining_own_capital, option3_capital_used]
    rw [if_neg (by rw [← h]; exact lt_irrefl 0), ← h]
    simp

/-- At the final year option 3's year-wise post-tax gain equals the
aggregate post-tax gain. -/
lemma yw_ptg3_endpoint (i : Inputs) (hT : 0 < i.loan_tenure)
    (hrem : 0 ≤ i.own_capital - i.custom_capital_contribution) :
    yw_post_tax_gain_option3 i i.loan_tenure = option3_post_tax_gain i := by
  rw [yw_post_tax_gain_option3, yw_gain3_endpoint i hT hrem]
  simp only [option3_post_tax_gain, option3_investment_gain,
    option3_remaining_own_capital, option3_capital_used]
  rcases hrem.lt_or_eq with h | h
  · rw [if_pos h, if_pos h]
  · rw [if_neg (by rw [← h]; exact lt_irrefl 0),
      if_neg (by rw [← h]; exact lt_irrefl 0), zero_mul]

/-- At the final year option 1's year-wise cumulative net cost equals the
aggregate net cost. -/
lemma yw1_net_endpoint (i : Inputs) (hr : 0 ≤ i.loan_rate)
    (hT : 0 < i.loan_tenure) :
    yw_option1_net_cost i i.loan_tenure = option1_net_outflow i := by
  simp only [yw_option1_net_cost, yw1_interest_endpoint i hr hT,
    option1_net_outflow, option1_effective_interest_lakh,
    option1_effective_interest, option1_total_interest_lakh]
  split_ifs <;> ring

/-- At the final year option 2's year-wise cumulative net cost equals the
aggregate net cost. -/
lemma yw2_net_endpoint (i : Inputs) (hpc : 0 ≤ i.project_cost)
    (hr : 0 ≤ i.loan_rate) (hT : 0 < i.loan_tenure) :
    yw_option2_net_cost i i.loan_tenure = option2_net_outflow i := by
  simp only [yw_option2_net_cost, yw2_interest_endpoint i hpc hr hT,
    yw_ptg2_endpoint i hT, option2_net_outflow,
    option2_effective_interest]
  split_ifs <;> ring

/-- At the final year option 3's year-wise cumulative net cost equals the
aggregate net cost. -/
lemma yw3_net_endpoint (i : Inputs) (hr : 0 ≤ i.loan_rate)
    (hT : 0 < i.loan_tenure)
    (hrem : 0 ≤ i.own_capital - i.custom_capital_contribution) :
    yw_option3_net_cost i i.loan_tenure = option3_net_outflow i := by
  simp only [yw_option3_net_cost, yw3_interest_endpoint i hr hT,
    yw_ptg3_endpoint i hT hrem, option3_net_outflow,
    option3_effective_interest_lakh, option3_effective_interest,
    option3_total_interest_lakh]
  split_ifs <;> ring

/-- Claim C5 as amended: the table has exactly `loan_tenure + 1` rows,
its row at index `y` is `year_row i y`; all interest and gain quantities
are 0 at year 0; the investment columns at every year equal re-running the
spec's step 4 with that year; and the row at `year = loan_tenure` equals
the scenario aggregates.  The interest (and hence net-cost) columns at the
intermediate years are computed from the full-tenure EMI by principal-first
attribution, not by re-running step 2 with the shorter tenure, so they
replay the spec only at years 0 and `loan_tenure`. -/
theorem claim_c5_year_wise (i : Inputs) (hpc : 0 ≤ i.project_cost)
    (hoc : 0 ≤ i.own_capital) (hr : 0 ≤ i.loan_rate)
    (hT : 0 < i.loan_tenure)
    (hcle : i.custom_capital_contribution ≤ i.own_capital) :
    ((generate_year_wise_data i).length = i.loan_tenure + 1 ∧
      ∀ y, y < i.loan_tenure + 1 →
        (generate_year_wise_data i).get? y = some (year_row i y)) ∧
    (yw_option1_interest_paid i 0 = 0 ∧ yw_option2_interest_paid i 0 = 0 ∧
      yw_option3_interest_paid i 0 = 0 ∧
      yw_investment_gain_option2 i 0 = 0 ∧
      yw_investment_gain_option3 i 0 = 0 ∧
      yw_post_tax_gain_option2 i 0 = 0 ∧
      yw_post_tax_gain_option3 i 0 = 0) ∧
    (∀ y,
      yw_investment_value_option2 i y =
        replay_investment_maturity i i.own_capital y ∧
      yw_investment_gain_option2 i y =
        replay_investment_gain i i.own_capital y ∧
      yw_post_tax_gain_option2 i y =
        replay_gain_after_tax i i.own_capital y ∧
      yw_investment_value_option3 i y =
        replay_investment_maturity i
          (i.own_capital - i.custom_capital_contribution) y ∧
      yw_investment_gain_option3 i y =
        replay_investment_gain i
          (i.own_capital - i.custom_capital_contribution) y ∧
      yw_post_tax_gain_option3 i y =
        replay_gain_after_tax i
          (i.own_capital - i.custom_capital_contribution) y) ∧
    (yw_option1_interest_paid i i.loan_tenure =
        option1_total_interest_lakh i ∧
      yw_option2_interest_paid i i.loan_tenure =
        option2_total_interest i / 100000 ∧
      yw_option3_interest_paid i i.loan_tenure =
        option3_total_interest_lakh i ∧
      yw_investment_value_option2 i i.loan_tenure =
        investment_maturity_value_option2 i ∧
      yw_investment_gain_option2 i i.loan_tenure =
        investment_gain_option2 i ∧
      yw_post_tax_gain_option2 i i.loan_tenure =
        post_tax_gain_option2 i ∧
      yw_investment_value_option3 i i.loan_tenure =
        option3_investment_maturity_value i ∧
      yw_investment_gain_option3 i i.loan_tenure =
        option3_investment_gain i ∧
      yw_post_tax_gain_option3 i i.loan_tenure =
        option3_post_tax_gain i ∧
      yw_option1_net_cost i i.loan_tenure = option1_net_outflow i ∧
      yw_option2_net_cost i i.loan_tenure = option2_net_outflow i ∧
      yw_option3_net_cost i i.loan_tenure = option3_net_outflow i) := by
  have hrem : 0 ≤ i.own_capital - i.custom_capital_contribution :=
    sub_nonneg.mpr hcle
  refine ⟨⟨?_, ?_⟩, ?_, ?_, ?_⟩
  · simp [generate_year_wise_data]
  · intro y hy
    rw [generate_year_wise_data, List.get?_map, List.get?_range hy]
    rfl
  · exact ⟨yw1_interest_zero i, yw2_interest_zero i hpc,
      yw3_interest_zero i, yw2_gain_zero i, yw3_gain_zero i,
      yw2_ptg_zero i, yw3_ptg_zero i⟩
  · intro y
    exact ⟨yw_value2_replay i hoc y, yw_gain2_replay i hoc y,
      yw_ptg2_replay i hoc y, yw_value3_replay i hrem y,
      yw_gain3_replay i hrem y, yw_ptg3_replay i hrem y⟩
  · exact ⟨yw1_interest_endpoint i hr hT, yw2_interest_endpoint i hpc hr hT,
      yw3_interest_endpoint i hr hT, yw_value2_endpoint i hT,
      yw_gain2_endpoint i hT, yw_ptg2_endpoint i hT,
      yw_value3_endpoint i hT hrem, yw_gain3_endpoint i hT hrem,
      yw_ptg3_endpoint i hT hrem, yw1_net_endpoint i hr hT,
      yw2_net_endpoint i hpc hr hT, yw3_net_endpoint i hr hT hrem⟩

/-- Input refuting claim C5 as stated: a 2-year loan with a 1200% annual
rate (monthly rate 1), no own capital. -/
def c5In : Inputs := ⟨1, 0, 1200, 2, false, 0, 0, .annual, 0⟩

/-- Counterexample to claim C5 as stated: at the intermediate year 1 the
table's option-1 interest column (principal-first attribution of payments
of the full-tenure EMI) differs from the value obtained by re-running the
spec's step 2 with the tenure replaced by 1. -/
theorem claim_c5_counterexample :
    yw_option1_interest_paid c5In 1 ≠
      replay_gross_interest_lakh c5In (option1_loan_amount_lakh c5In) 1 := by
  norm_num [yw_option1_interest_paid, replay_gross_interest_lakh,
    option1_loan_amount_lakh, option1_loan_amount_actual, option1_emi,
    calculate_emi, c5In, min_def, max_def]

/-- Input for the claim C5 witness. -/
def c5wIn : Inputs := ⟨1, 1, 0, 1, false, 0, 0, .annual, 0⟩

/-- Witness for the amended claim C5 at a concrete valid input: the table
has 2 rows, the year-0 interest is 0, the year-1 value column equals the
step-4 replay, and the final net cost column equals the aggregate. -/
theorem claim_c5_year_wise_witness :
    (generate_year_wise_data c5wIn).length = c5wIn.loan_tenure + 1 ∧
    yw_option1_interest_paid c5wIn 0 = 0 ∧
    yw_investment_value_option2 c5wIn 1 =
      replay_investment_maturity c5wIn c5wIn.own_capital 1 ∧
    yw_option1_net_cost c5wIn c5wIn.loan_tenure =
      option1_net_outflow c5wIn := by
  have h := claim_c5_year_wise c5wIn (by norm_num [c5wIn])
    (by norm_num [c5wIn]) (by norm_num [c5wIn]) (by norm_num [c5wIn])
    (by norm_num [c5wIn])
  exact ⟨h.1.1, h.2.1.1, (h.2.2.1 1).1, h.2.2.2.2.2.2.2.2.2.2.2.2.1⟩

end ProjectFinancing
